import Mathlib

/-!
Shallow embedding of the four Playwright end-to-end test scripts in
`testsprite_tests/` (TC005, TC014, TC016, TC020).

Each Python script is a single `async def run_test()` whose body is a fixed,
linear sequence of browser-automation statements inside `try: ... finally:`.
We transcribe each source statement into a `Step`; the whole script body
becomes a constant `List Step`.  The runtime behaviour of a statement is
reduced to "succeeds" or "raises an exception of some kind", supplied
externally as a list of outcomes (one per executed statement).  The per-step
exception handling present in the source (`except async_api.Error: pass`
around load-state waits, `except AssertionError: raise AssertionError(msg)`
around the wrapped final assertions) is captured by `handle`.

The `finally:` block closes, in order, the context, the browser and the
Playwright session, each guarded by an `if <resource>:` check; this is
modelled by `cleanupFrom` over the acquisition flags accumulated during the
body run.

The `for frame in page.frames` loop of ignored load-state waits is modelled
at source-statement granularity as a single `tryWaitLoad "frames" ...` step:
every iteration is the same ignored wait, and a non-library exception in any
iteration aborts the loop exactly as it aborts the single step.
-/

namespace VaultScout

/-- Kinds of exception distinguished by the scripts' `except` clauses:
the automation library's `async_api.Error` (including its timeout error),
`AssertionError` (carrying a message), and every other exception kind. -/
inductive ExcKind
  | pwError
  | assertionFail (msg : String)
  | otherError
deriving DecidableEq

/-- An element action: `elem.click(timeout=...)` or `elem.fill(value)`. -/
inductive Action
  | click (timeoutMs : Nat)
  | fill (value : String)
deriving DecidableEq

/-- One source statement of a script body.  `interact` packages the source
line pair `frame = context.pages[pageIndex]` /
`elem = frame.locator('xpath=...').nth(n)` followed by
`await page.wait_for_timeout(pauseMs); await elem.<action>`. -/
inductive Step
  | acquirePw
  | launchBrowser (headless : Bool) (args : List String)
  | newContext
  | setDefaultTimeout (ms : Nat)
  | newPage
  | goto (url : String) (waitUntil : String) (timeoutMs : Nat)
  | tryWaitLoad (scope : String) (state : String) (timeoutMs : Nat)
  | interact (pageIndex : Int) (xpath : String) (nth : Nat) (pauseMs : Nat) (act : Action)
  | mouseWheel (dx : Nat) (dy : Nat)
  | assertVisible (text : String) (timeoutMs : Nat)
  | assertVisibleWrapped (text : String) (timeoutMs : Nat) (failMsg : String)
  | sleepSecs (n : Nat)
deriving DecidableEq

/-- The three `None`-initialised resource variables of every script. -/
inductive Res
  | pw
  | browser
  | context
deriving DecidableEq, Fintype

/-- Which resource variables have been assigned (are not `None`). -/
structure RunState where
  hasPw : Bool
  hasBrowser : Bool
  hasContext : Bool
deriving DecidableEq

def initState : RunState := ⟨false, false, false⟩

/-- A successful acquisition statement assigns its resource variable. -/
def stepAcquire (s : RunState) : Step → RunState
  | .acquirePw => { s with hasPw := true }
  | .launchBrowser _ _ => { s with hasBrowser := true }
  | .newContext => { s with hasContext := true }
  | _ => s

/-- Effect of the source's `except` clauses when step `st` raises `e`:
`none` means the exception is swallowed and execution continues;
`some e2` means the body aborts with exception `e2`.
Load-state waits swallow exactly `async_api.Error`; a wrapped final
assertion replaces an `AssertionError` by one carrying the script-specific
message; every other statement lets the exception propagate. -/
def handle : Step → ExcKind → Option ExcKind
  | .tryWaitLoad _ _ _, .pwError => none
  | .assertVisibleWrapped _ _ msg, .assertionFail _ => some (.assertionFail msg)
  | _, e => some e

/-- Result of running a script body: the statements actually executed (in
order), the final resource-acquisition flags, and `none` on success or the
exception the body raised. -/
structure BodyResult where
  issued : List Step
  res : RunState
  outcome : Option ExcKind
deriving DecidableEq

/-- Run the body statements in order.  `os` supplies one outcome per
executed statement (`none` = the statement succeeds; missing entries
default to success). -/
def runBody : List Step → List (Option ExcKind) → RunState → BodyResult
  | [], _, s => ⟨[], s, none⟩
  | st :: rest, os, s =>
    match os.headD none with
    | none =>
      let r := runBody rest os.tail (stepAcquire s st)
      ⟨st :: r.issued, r.res, r.outcome⟩
    | some e =>
      match handle st e with
      | none =>
        let r := runBody rest os.tail s
        ⟨st :: r.issued, r.res, r.outcome⟩
      | some e2 => ⟨[st], s, some e2⟩

def runScript (t : List Step) (os : List (Option ExcKind)) : BodyResult :=
  runBody t os initState

/-- `acquiredB s r` : the `if <resource>:` guard of the cleanup block. -/
def acquiredB (s : RunState) : Res → Bool
  | .context => s.hasContext
  | .browser => s.hasBrowser
  | .pw => s.hasPw

/-- The fixed order of the `finally:` block: `context.close()`,
`browser.close()`, `pw.stop()`. -/
def cleanupOrder : List Res := [.context, .browser, .pw]

/-- Resources successfully closed by the cleanup block: each acquired
resource is closed in order; if a close raises (`failsOn r = true`) the
exception propagates out of the `finally:` block and the remaining closes
never run. -/
def cleanupFrom : List Res → RunState → (Res → Bool) → List Res
  | [], _, _ => []
  | r :: rest, s, failsOn =>
    if acquiredB s r then
      if failsOn r then []
      else r :: cleanupFrom rest s failsOn
    else cleanupFrom rest s failsOn

def released (s : RunState) (failsOn : Res → Bool) : List Res :=
  cleanupFrom cleanupOrder s failsOn

/-- Close-failure environment from three booleans (context, browser, pw). -/
def mkClose (cctx cbr cpw : Bool) : Res → Bool
  | .context => cctx
  | .browser => cbr
  | .pw => cpw

/-! ### The four script bodies, transcribed statement by statement -/

def launchArgs : List String :=
  ["--window-size=1280,720", "--disable-dev-shm-usage", "--ipc=host", "--single-process"]

def loginLinkXPath : String := "html/body/div[2]/header/div/div/a"

def emailInputXPath : String :=
  "html/body/div[2]/main/div/div/div/div/div/div[2]/div[2]/div/form/div/div[2]/div/div/input"

def passwordInputXPath : String :=
  "html/body/div[2]/main/div/div/div/div/div/div[2]/div[2]/div/form/div[2]/div[2]/div/div/input"

def continueButtonXPath : String :=
  "html/body/div[2]/main/div/div/div/div/div/div[2]/div[2]/div/form/button"

def headerNavDocumentsXPath : String := "html/body/div[2]/header/div/nav/a[2]"

def logoutButtonXPath : String := "html/body/div[2]/header/div/div[2]/div[2]/button"

def documentsQuickLinkXPath : String := "html/body/div[2]/main/div/div[3]/div/div/a"

/-- `frame = context.pages[-1]; elem = frame.locator('xpath=...').nth(0);
await page.wait_for_timeout(3000); await elem.click(timeout=5000)` -/
def clickStep (xp : String) : Step := .interact (-1) xp 0 3000 (.click 5000)

/-- Same shape with `await elem.fill(v)` (no explicit timeout on `fill`). -/
def fillStep (xp v : String) : Step := .interact (-1) xp 0 3000 (.fill v)

/-- Statements shared verbatim by all four scripts: session/browser/context
setup, navigation to the fixed local URL, the two ignored load-state waits,
and the login flow (same locators and credentials in every file). -/
def setupSteps : List Step :=
  [.acquirePw, .launchBrowser true launchArgs, .newContext, .setDefaultTimeout 5000, .newPage]

def gotoStep : Step := .goto "http://localhost:5322" "commit" 10000

def loadWaitSteps : List Step :=
  [.tryWaitLoad "page" "domcontentloaded" 3000, .tryWaitLoad "frames" "domcontentloaded" 3000]

def authSteps : List Step :=
  [clickStep loginLinkXPath,
   fillStep emailInputXPath "jane.smith@example.com",
   fillStep passwordInputXPath "MySecurePassword123!",
   clickStep continueButtonXPath]

def commonPrefixSteps : List Step := setupSteps ++ [gotoStep] ++ loadWaitSteps ++ authSteps

def tc005FailMsg : String :=
  "Test case failed: Uploaded documents were not processed correctly. Text extraction, normalization, chunking, or content hash generation did not meet the expected criteria as per the test plan."

def tc005Trace : List Step :=
  commonPrefixSteps ++
  [clickStep headerNavDocumentsXPath,
   .assertVisibleWrapped "Document processing completed successfully" 1000 tc005FailMsg,
   .sleepSecs 5]

def tc014Trace : List Step :=
  commonPrefixSteps ++
  [clickStep logoutButtonXPath,
   fillStep emailInputXPath "admin@example.com",
   fillStep passwordInputXPath "AdminPassword!2025",
   clickStep continueButtonXPath,
   fillStep emailInputXPath "admin@example.com",
   fillStep passwordInputXPath "AdminPassword!2025",
   clickStep continueButtonXPath,
   .assertVisible "Welcome back" 30000,
   .assertVisible "Access your knowledge base and search platform" 30000,
   .assertVisible "Continue" 30000,
   .assertVisible "By continuing, you agree to ourTermsandPrivacy Policy." 30000,
   .assertVisible "New to Quodo?Create an account" 30000,
   .assertVisible "Secure access to your data" 30000,
   .assertVisible "Enterprise-grade search platform with instant document retrieval and team collaboration." 30000,
   .assertVisible "Lightning-fast full-text search" 30000,
   .assertVisible "Advanced document preview" 30000,
   .assertVisible "Team sharing and permissions" 30000,
   .sleepSecs 5]

def tc016FailMsg : String :=
  "Test failed: Batch sizes for Hugging Face embedding requests and Pinecone vector upserts are not properly configurable or are causing rate limits/throttling as per the test plan."

def tc016Trace : List Step :=
  commonPrefixSteps ++
  [.mouseWheel 0 300,
   clickStep documentsQuickLinkXPath,
   .assertVisibleWrapped "Batch size configuration successful" 1000 tc016FailMsg,
   .sleepSecs 5]

def tc020FailMsg : String :=
  "Test failed: The document did not become searchable within 2 minutes after upload as required by the test plan."

def tc020Trace : List Step :=
  commonPrefixSteps ++
  [clickStep documentsQuickLinkXPath,
   .assertVisibleWrapped "Document upload successful and searchable within 2 minutes" 1000 tc020FailMsg,
   .sleepSecs 5]

/-! ### Observations on traces used by the claim statements -/

/-- Text asserted visible by a (wrapped or unwrapped) final assertion. -/
def assertText : Step → Option String
  | .assertVisible s _ => some s
  | .assertVisibleWrapped s _ _ => some s
  | _ => none

def assertTexts (t : List Step) : List String := t.filterMap assertText

def gotoUrls (t : List Step) : List String :=
  t.filterMap fun st =>
    match st with
    | .goto u _ _ => some u
    | _ => none

def isGoto : Step → Bool
  | .goto _ _ _ => true
  | _ => false

def isClickFill : Step → Bool
  | .interact _ _ _ _ _ => true
  | _ => false

def isWheel : Step → Bool
  | .mouseWheel _ _ => true
  | _ => false

def isAssertStep : Step → Bool
  | .assertVisible _ _ => true
  | .assertVisibleWrapped _ _ _ => true
  | _ => false

/-- An unwrapped final assertion (a bare `expect(...).to_be_visible(...)`
with no surrounding `try/except`). -/
def isRawAssert : Step → Bool
  | .assertVisible _ _ => true
  | _ => false

/-- The shape asserted by the spec for every script: the shared setup,
navigation, load waits and login statements, then a nonempty block of
click/fill interactions, then a nonempty block of visibility assertions,
then the final `asyncio.sleep(5)`. -/
def followsPattern (t : List Step) : Bool :=
  commonPrefixSteps.isPrefixOf t &&
  (let rest := t.drop commonPrefixSteps.length
   let feature := rest.takeWhile isClickFill
   let rest2 := rest.drop feature.length
   let asserts := rest2.takeWhile isAssertStep
   let rest3 := rest2.drop asserts.length
   !feature.isEmpty && !asserts.isEmpty && (rest3 == [Step.sleepSecs 5]))

/-- Same shape but the feature block may also contain mouse-scroll steps. -/
def followsPatternLoose (t : List Step) : Bool :=
  commonPrefixSteps.isPrefixOf t &&
  (let rest := t.drop commonPrefixSteps.length
   let feature := rest.takeWhile fun st => isClickFill st || isWheel st
   let rest2 := rest.drop feature.length
   let asserts := rest2.takeWhile isAssertStep
   let rest3 := rest2.drop asserts.length
   !feature.isEmpty && !asserts.isEmpty && (rest3 == [Step.sleepSecs 5]))

/-- The timeout discipline claimed for every script: the context default
timeout is set to 5000 ms, the (sole kind of) navigation carries an explicit
10000 ms timeout, every click carries an explicit 5000 ms timeout, and every
click or fill is preceded by a fixed 3000 ms pause. -/
def timeoutDiscipline (t : List Step) : Bool :=
  t.contains (Step.setDefaultTimeout 5000) &&
  t.any isGoto &&
  t.all fun st =>
    match st with
    | Step.goto _ _ ms => ms == 10000
    | Step.interact _ _ _ p (Action.click ms) => (p == 3000) && (ms == 5000)
    | Step.interact _ _ _ p (Action.fill _) => p == 3000
    | _ => true

/-- Every element interaction selects `context.pages[-1]` and `.nth(0)`. -/
def targetsLastPageFirstMatch (t : List Step) : Bool :=
  t.all fun st =>
    match st with
    | Step.interact pIdx _ n _ _ => (pIdx == (-1 : Int)) && (n == 0)
    | _ => true

/-- A stand-in for the automation library's own assertion-failure message. -/
def rawLibMsg : String := "Locator expected to be visible"

/-- Outcome environment in which every non-assertion statement succeeds and
an assertion on text `x` raises `AssertionError` exactly when `vis x` is
false (i.e. the text does not become visible within its timeout). -/
def visOutcome (vis : String → Bool) (st : Step) : Option ExcKind :=
  match assertText st with
  | some x => if vis x then none else some (ExcKind.assertionFail rawLibMsg)
  | none => none

def visOutcomes (t : List Step) (vis : String → Bool) : List (Option ExcKind) :=
  t.map (visOutcome vis)

/-- Outcome list: the first `k` statements succeed and statement `k` raises
`AssertionError m` (used to drive a final assertion to its timeout). -/
def failAssert (k : Nat) (m : String) : List (Option ExcKind) :=
  List.replicate k none ++ [some (ExcKind.assertionFail m)]

/-- Outcome list raising the library error at both load-state waits (they
are statements 6 and 7 in every script) and succeeding everywhere else. -/
def pwErrorAtWaits : List (Option ExcKind) :=
  [none, none, none, none, none, none, some ExcKind.pwError, some ExcKind.pwError]

/-- Outcome list raising a non-library exception at the page load-state
wait (statement 6) and succeeding before it. -/
def otherErrorAtPageWait : List (Option ExcKind) :=
  [none, none, none, none, none, none, some ExcKind.otherError]

/-! ### Claim-statement abbreviations -/

/-- Whatever succeeds or raises in the body, the cleanup block (with
non-failing closes) releases exactly the acquired resources. -/
def releaseComplete (t : List Step) : Prop :=
  ∀ (os : List (Option ExcKind)) (r : Res),
    (released (runScript t os).res (fun _ => false)).contains r =
      acquiredB (runScript t os).res r

/-- Cleanup releases in the fixed order context, browser, pw, restricted to
acquired resources and truncated at the first failing close; consequently a
failing earlier close leaves the later resources unreleased, and only
acquired resources are ever released. -/
def cleanupSpec (t : List Step) : Prop :=
  ∀ (os : List (Option ExcKind)) (cctx cbr cpw : Bool),
    released (runScript t os).res (mkClose cctx cbr cpw) =
      ((cleanupOrder.filter (acquiredB (runScript t os).res)).takeWhile
        fun r => !(mkClose cctx cbr cpw r)) ∧
    (acquiredB (runScript t os).res Res.context = true → cctx = true →
      released (runScript t os).res (mkClose cctx cbr cpw) = []) ∧
    (acquiredB (runScript t os).res Res.browser = true → cbr = true →
      (released (runScript t os).res (mkClose cctx cbr cpw)).contains Res.pw = false) ∧
    (∀ r : Res,
      (released (runScript t os).res (mkClose cctx cbr cpw)).contains r = true →
      acquiredB (runScript t os).res r = true)

/-- A script that times out on its (wrapped) final assertion aborts with an
`AssertionError` carrying the fixed script-specific message, whatever
message the library's own assertion error carried. -/
def raisesScriptMessage (t : List Step) (k : Nat) (msg : String) : Prop :=
  ∀ m : String,
    (runScript t (failAssert k m)).outcome = some (ExcKind.assertionFail msg)

/-- Library errors at the two load-state waits are swallowed: the run
issues every statement, succeeds, and acquires the same resources as an
error-free run. -/
def ignoresPwErrorWaits (t : List Step) : Prop :=
  (runScript t pwErrorAtWaits).outcome = none ∧
  (runScript t pwErrorAtWaits).issued = t ∧
  (runScript t pwErrorAtWaits).res = (runScript t []).res

/-- The run succeeds exactly when every asserted text becomes visible,
given that all non-assertion statements succeed. -/
def successIffVisible (t : List Step) : Prop :=
  ∀ vis : String → Bool,
    ((runScript t (visOutcomes t vis)).outcome = none ↔
      (assertTexts t).all vis = true)

/-- The statements a run issues are always an initial segment of the fixed
trace; an error-free run issues all of them; and any two runs agree up to
the point where one of them stops. -/
def fixedCommandStream (t : List Step) : Prop :=
  (∀ os : List (Option ExcKind), ∃ u, (runScript t os).issued ++ u = t) ∧
  (runScript t []).issued = t ∧
  (∀ os₁ os₂ : List (Option ExcKind),
    (∃ w, (runScript t os₁).issued ++ w = (runScript t os₂).issued) ∨
    (∃ w, (runScript t os₂).issued ++ w = (runScript t os₁).issued))

/-! ### Helper lemmas -/

theorem released_noFail_contains (s : RunState) (r : Res) :
    (released s (fun _ => false)).contains r = acquiredB s r := by
  obtain ⟨a, b, c⟩ := s
  revert a b c r
  decide

theorem released_cleanup_props (s : RunState) (cctx cbr cpw : Bool) :
    released s (mkClose cctx cbr cpw) =
      ((cleanupOrder.filter (acquiredB s)).takeWhile fun r => !(mkClose cctx cbr cpw r)) ∧
    (acquiredB s Res.context = true → cctx = true →
      released s (mkClose cctx cbr cpw) = []) ∧
    (acquiredB s Res.browser = true → cbr = true →
      (released s (mkClose cctx cbr cpw)).contains Res.pw = false) ∧
    (∀ r : Res, (released s (mkClose cctx cbr cpw)).contains r = true →
      acquiredB s r = true) := by
  obtain ⟨a, b, c⟩ := s
  revert a b c cctx cbr cpw
  decide

theorem handle_assertionFail_some (st : Step) (m : String) :
    ∃ e, handle st (ExcKind.assertionFail m) = some e := by
  cases st <;> exact ⟨_, rfl⟩

theorem runBody_visOutcomes (t : List Step) (vis : String → Bool) (s : RunState) :
    ((runBody t (visOutcomes t vis) s).outcome = none ↔
      (assertTexts t).all vis = true) := by
  induction t generalizing s with
  | nil => simp [runBody, visOutcomes, assertTexts]
  | cons st rest ih =>
    cases hat : assertText st with
    | none =>
      have hv : visOutcome vis st = none := by simp [visOutcome, hat]
      simp [runBody, visOutcomes, hv, assertTexts, List.filterMap_cons, hat, ih,
        assertTexts] at ih ⊢
      exact ih _
    | some x =>
      cases hvx : vis x with
      | true =>
        have hv : visOutcome vis st = none := by simp [visOutcome, hat, hvx]
        simp [runBody, visOutcomes, hv, assertTexts, List.filterMap_cons, hat, hvx] at ih ⊢
        exact ih _
      | false =>
        have hv : visOutcome vis st = some (ExcKind.assertionFail rawLibMsg) := by
          simp [visOutcome, hat, hvx]
        obtain ⟨e, he⟩ := handle_assertionFail_some st rawLibMsg
        simp [runBody, visOutcomes, hv, he, assertTexts, List.filterMap_cons, hat, hvx]

theorem runBody_issued_extends (t : List Step) (os : List (Option ExcKind)) (s : RunState) :
    ∃ u, (runBody t os s).issued ++ u = t := by
  induction t generalizing os s with
  | nil => exact ⟨[], rfl⟩
  | cons st rest ih =>
    cases os with
    | nil =>
      obtain ⟨u, hu⟩ := ih [] (stepAcquire s st)
      exact ⟨u, by simp [runBody, List.headD_nil, List.tail_nil, hu]⟩
    | cons o os' =>
      cases o with
      | none =>
        obtain ⟨u, hu⟩ := ih os' (stepAcquire s st)
        exact ⟨u, by simp [runBody, List.headD_cons, List.tail_cons, hu]⟩
      | some e =>
        cases hh : handle st e with
        | none =>
          obtain ⟨u, hu⟩ := ih os' s
          exact ⟨u, by simp [runBody, List.headD_cons, List.tail_cons, hh, hu]⟩
        | some e2 => exact ⟨rest, by simp [runBody, List.headD_cons, hh]⟩

theorem runBody_no_errors (t : List Step) (s : RunState) :
    (runBody t [] s).issued = t := by
  induction t generalizing s with
  | nil => rfl
  | cons st rest ih => simp [runBody, List.headD, ih]

theorem prefixes_comparable :
    ∀ (a b c u v : List Step), a ++ u = c → b ++ v = c →
      (∃ w, a ++ w = b) ∨ (∃ w, b ++ w = a) := by
  intro a
  induction a with
  | nil =>
    intro b c u v _ _
    exact Or.inl ⟨b, by simp⟩
  | cons x a' ih =>
    intro b c u v h1 h2
    cases b with
    | nil => exact Or.inr ⟨x :: a', by simp⟩
    | cons y b' =>
      cases c with
      | nil => simp at h1
      | cons z c' =>
        simp only [List.cons_append, List.cons.injEq] at h1 h2
        obtain ⟨hx, h1'⟩ := h1
        obtain ⟨hy, h2'⟩ := h2
        subst hx
        subst hy
        rcases ih b' c' u v h1' h2' with ⟨w, hw⟩ | ⟨w, hw⟩
        · exact Or.inl ⟨w, by simp [hw]⟩
        · exact Or.inr ⟨w, by simp [hw]⟩

theorem fixedCommandStream_of (t : List Step) : fixedCommandStream t := by
  refine ⟨fun os => runBody_issued_extends t os initState,
    runBody_no_errors t initState, fun os₁ os₂ => ?_⟩
  obtain ⟨u, hu⟩ := runBody_issued_extends t os₁ initState
  obtain ⟨v, hv⟩ := runBody_issued_extends t os₂ initState
  exact prefixes_comparable _ _ t u v hu hv

/-! ### Claim theorems -/

/-- C1: for every script and every execution of its body — success or an
exception at any point — the cleanup block (whose close operations are here
taken to succeed) releases exactly the resources among pw, browser and
context that were actually acquired; a resource never acquired is not
released. -/
theorem resources_released_iff_acquired :
    releaseComplete tc005Trace ∧ releaseComplete tc014Trace ∧
    releaseComplete tc016Trace ∧ releaseComplete tc020Trace := by
  refine ⟨?_, ?_, ?_, ?_⟩ <;> exact fun os r => released_noFail_contains _ r

/-- C2 counterexample: TC016 does not follow the claimed shape "shared
setup and login, then a sequence of click/fill operations on XPath-located
elements, then assertions": its feature block starts with
`page.mouse.wheel(0, 300)`, which is neither a click nor a fill on an
XPath-located element. -/
theorem tc016_breaks_clickfill_shape : followsPattern tc016Trace = false := by
  decide

/-- C2 amended: all four scripts perform the same fixed procedure —
identical setup, navigation to http://localhost:5322, identical login
click/fill statements, then feature interactions, then visibility
assertions, then a final sleep — except that TC016's feature block
additionally contains the single fixed scroll `mouse.wheel(0, 300)`; apart
from that scroll all feature steps are clicks/fills on XPath locators. -/
theorem scripts_follow_shared_shape :
    followsPattern tc005Trace = true ∧ followsPattern tc014Trace = true ∧
    followsPattern tc020Trace = true ∧ followsPatternLoose tc016Trace = true ∧
    tc016Trace.filter isWheel = [Step.mouseWheel 0 300] := by
  refine ⟨by decide, by decide, by decide, by decide, by decide⟩

/-- C3 counterexample: TC014's ten final visibility assertions are bare
`expect(...).to_be_visible(...)` statements with no surrounding
`try/except`; when one of them fails, the library's own `AssertionError`
(message `rawLibMsg` here) propagates unchanged instead of a descriptive
script-specific message, so the claimed handling is not uniform across the
four scripts. -/
theorem tc014_raw_assert_propagates :
    tc014Trace.any isRawAssert = true ∧
    tc005Trace.any isRawAssert = false ∧
    tc016Trace.any isRawAssert = false ∧
    tc020Trace.any isRawAssert = false ∧
    (runScript tc014Trace (failAssert 19 rawLibMsg)).outcome =
      some (ExcKind.assertionFail rawLibMsg) := by
  refine ⟨by decide, by decide, by decide, by decide, rfl⟩

/-- C3 amended: in TC005, TC016 and TC020 a final visibility assertion
that fails raises an `AssertionError` carrying the script-specific failure
message (whatever message the library error carried); in TC014 the raw
library `AssertionError` propagates unchanged. -/
theorem wrapped_assert_messages :
    raisesScriptMessage tc005Trace 13 tc005FailMsg ∧
    raisesScriptMessage tc016Trace 14 tc016FailMsg ∧
    raisesScriptMessage tc020Trace 13 tc020FailMsg ∧
    (∀ m : String,
      (runScript tc014Trace (failAssert 19 m)).outcome =
        some (ExcKind.assertionFail m)) :=
  ⟨fun _ => rfl, fun _ => rfl, fun _ => rfl, fun _ => rfl⟩

/-- C4 counterexample: the load-state waits catch only the automation
library's `async_api.Error`; an exception of any other kind raised by the
page load-state wait (statement 6 of TC005) is not caught — the script
aborts there instead of continuing with the remaining statements. -/
theorem load_wait_other_error_propagates :
    (runScript tc005Trace otherErrorAtPageWait).outcome = some ExcKind.otherError ∧
    (runScript tc005Trace otherErrorAtPageWait).issued = List.take 7 tc005Trace ∧
    List.take 7 tc005Trace ≠ tc005Trace := by
  refine ⟨rfl, rfl, by decide⟩

/-- C4 amended: in every script, exactly the automation library's errors
(`async_api.Error`) raised by the page or frame load-state waits are caught
and ignored; under such errors the script still issues every statement,
succeeds, and acquires the same resources as an error-free run.  Errors of
any other kind propagate. -/
theorem load_wait_swallows_only_pw_error :
    (∀ (sc state : String) (ms : Nat) (e : ExcKind),
      handle (Step.tryWaitLoad sc state ms) e = none ↔ e = ExcKind.pwError) ∧
    ignoresPwErrorWaits tc005Trace ∧ ignoresPwErrorWaits tc014Trace ∧
    ignoresPwErrorWaits tc016Trace ∧ ignoresPwErrorWaits tc020Trace := by
  refine ⟨?_, ⟨rfl, rfl, rfl⟩, ⟨rfl, rfl, rfl⟩, ⟨rfl, rfl, rfl⟩, ⟨rfl, rfl, rfl⟩⟩
  intro sc state ms e
  cases e <;> simp [handle]

/-- C5: in every script the context default timeout is set to 5000 ms, the
navigation to the target URL carries an explicit 10000 ms timeout, every
click carries an explicit 5000 ms timeout, and every click or fill is
preceded by a fixed 3000 ms pause; all these bounds are literal constants
of the fixed traces, independent of runtime data. -/
theorem timeout_discipline_all_scripts :
    timeoutDiscipline tc005Trace = true ∧ timeoutDiscipline tc014Trace = true ∧
    timeoutDiscipline tc016Trace = true ∧ timeoutDiscipline tc020Trace = true := by
  refine ⟨by decide, by decide, by decide, by decide⟩

/-- C6: the final assertions check exactly the expected script-specific
texts (TC005 "Document processing completed successfully", TC014 "Welcome
back" among its fixed strings, TC016 "Batch size configuration successful",
TC020 "Document upload successful and searchable within 2 minutes"), every
script navigates to the fixed local address http://localhost:5322, and —
with all interaction statements succeeding — a script's run succeeds if and
only if every one of its expected texts becomes visible. -/
theorem assert_texts_and_success_iff_visible :
    assertTexts tc005Trace = ["Document processing completed successfully"] ∧
    "Welcome back" ∈ assertTexts tc014Trace ∧
    assertTexts tc016Trace = ["Batch size configuration successful"] ∧
    assertTexts tc020Trace = ["Document upload successful and searchable within 2 minutes"] ∧
    (gotoUrls tc005Trace = ["http://localhost:5322"] ∧
     gotoUrls tc014Trace = ["http://localhost:5322"] ∧
     gotoUrls tc016Trace = ["http://localhost:5322"] ∧
     gotoUrls tc020Trace = ["http://localhost:5322"]) ∧
    successIffVisible tc005Trace ∧ successIffVisible tc014Trace ∧
    successIffVisible tc016Trace ∧ successIffVisible tc020Trace := by
  refine ⟨by decide, by decide, by decide, by decide,
    ⟨by decide, by decide, by decide, by decide⟩, ?_, ?_, ?_, ?_⟩ <;>
    exact fun vis => runBody_visOutcomes _ vis initState

/-- C8: the statements a run issues (URL navigation, XPath clicks and
fills with their values, assertions) are always an initial segment of the
script's fixed constant trace — control flow never branches on page
content, only on whether a statement raises — so an error-free run issues
exactly the fixed sequence and any two runs agree up to the point where one
stops. -/
theorem issued_commands_fixed :
    fixedCommandStream tc005Trace ∧ fixedCommandStream tc014Trace ∧
    fixedCommandStream tc016Trace ∧ fixedCommandStream tc020Trace :=
  ⟨fixedCommandStream_of _, fixedCommandStream_of _,
   fixedCommandStream_of _, fixedCommandStream_of _⟩

/-- C9: every element interaction in all four scripts selects the last
page of the context (`context.pages[-1]`) and the first locator match
(`.nth(0)`). -/
theorem interactions_target_last_page_first_match :
    targetsLastPageFirstMatch tc005Trace = true ∧
    targetsLastPageFirstMatch tc014Trace = true ∧
    targetsLastPageFirstMatch tc016Trace = true ∧
    targetsLastPageFirstMatch tc020Trace = true := by
  refine ⟨by decide, by decide, by decide, by decide⟩

/-- C10: in every script's cleanup block the resources are closed in the
fixed order context, browser, pw, each guarded by its acquisition check
(the released list equals the acquired sublist of that order truncated at
the first failing close); hence if closing the context raises nothing
further is released, if closing the browser raises pw is not released, and
only acquired resources are ever released. -/
theorem cleanup_order_and_skip :
    cleanupSpec tc005Trace ∧ cleanupSpec tc014Trace ∧
    cleanupSpec tc016Trace ∧ cleanupSpec tc020Trace := by
  refine ⟨?_, ?_, ?_, ?_⟩ <;>
    exact fun os cctx cbr cpw => released_cleanup_props (runScript _ os).res cctx cbr cpw

/-- Witness for C10: in TC005 with an error-free body all three resources
are acquired; if closing the context then raises, nothing is released. -/
theorem cleanup_skip_witness :
    acquiredB (runScript tc005Trace []).res Res.context = true ∧
    released (runScript tc005Trace []).res (mkClose true false false) = [] := by
  have h := (cleanup_order_and_skip.1 [] true false false).2.1
  exact ⟨by decide, h (by decide) rfl⟩

end VaultScout
